import Mathlib

/-!
# Verification of the `sqlmodelservice` generic CRUD service layer

Shallow embedding of `src/sqlmodelservice/service.py` (and the identical
`utils.safe_commit`).  The underlying ORM session is modelled as an explicit
state record: a committed store, a list of staged (pending) rows, a list of
staged deletions, an injectable commit failure, and instrumentation counters
for commit attempts, rollbacks and refreshes.  Exceptions are modelled with
`Except` / `Option` error channels; the hierarchy of Python exception classes
is flattened into the inductive `Err`, with `Err.isServiceError` marking the
four kinds that derive from `ServiceException`.
-/

/-- Python attribute values occurring in models (including Python `None`,
which is a genuine value, distinct from "the field was not provided"). -/
inductive Value where
  | vnone
  | vint (i : Int)
  | vstr (s : String)
  | vbool (b : Bool)
deriving DecidableEq, Repr

/-- `AtomicPrimaryKey = int | str` from `service.py`. -/
inductive Atomic where
  | aint (i : Int)
  | astr (s : String)
deriving DecidableEq, Repr

/-- Python `str()` applied to an atomic primary key component. -/
def atomicStr : Atomic → String
  | .aint i => toString i
  | .astr s => s

/-- `PrimaryKey = AtomicPrimaryKey | tuple[...] | list[...] | Mapping[str, AtomicPrimaryKey]`.
The constructor `other` stands for a runtime value outside the declared union
(Python is dynamically typed, so such a value can reach the formatter). -/
inductive PK where
  | atom (a : Atomic)
  | tup (xs : List Atomic)
  | lst (xs : List Atomic)
  | pmap (ps : List (String × Atomic))
  | other
deriving DecidableEq, Repr

/-- Flattened exception universe.  The first four constructors are the service
error taxonomy from `errors.py` / `service.py` (all derive from
`ServiceException`); the rest are exceptions of the underlying layers
(SQLAlchemy result errors, database errors, Python `ValueError` and
`TypeError`-like validation failures). -/
inductive Err where
  | serviceException (msg : String)
  | commitFailed (msg : String) (cause : Err)
  | notFound (msg : String)
  | multipleResultsFound (msg : String)
  | valueError (msg : String)
  | dbError (msg : String)
  | typeError (msg : String)
  | saNoResultFound
  | saMultipleResultsFound
deriving DecidableEq, Repr

/-- Whether an exception belongs to the service taxonomy
(i.e. is an instance of `ServiceException` in the Python source). -/
def Err.isServiceError : Err → Bool
  | .serviceException _ => true
  | .commitFailed _ _ => true
  | .notFound _ => true
  | .multipleResultsFound _ => true
  | _ => false

/-- A persisted model instance (`TModel`): an attribute map. -/
structure Item where
  attrs : List (String × Value)
deriving DecidableEq, Repr

/-- Creation input (`TCreate`): the attribute values supplied by the caller. -/
structure CreateInput where
  attrs : List (String × Value)
deriving DecidableEq, Repr

/-- One field of an update input: its name, its value, and the pydantic
per-field "was this field explicitly set by the caller" marker.  The marker is
independent of the value, so a field explicitly set to `Value.vnone` is still
"set". -/
structure UField where
  name : String
  value : Value
  wasSet : Bool
deriving DecidableEq, Repr

/-- Update input (`TUpdate`): a pydantic model viewed as its field list. -/
abbrev UpdateInput := List UField

/-- `data.model_dump(exclude_unset=True)`: the name/value pairs of exactly the
explicitly-set fields, in field order. -/
def modelDumpExcludeUnset (data : UpdateInput) : List (String × Value) :=
  (data.filter (fun f => f.wasSet)).map (fun f => (f.name, f.value))

/-- Attribute lookup in an attribute map (first binding wins). -/
def lookupAttr : List (String × Value) → String → Option Value
  | [], _ => none
  | (k, v) :: rest, key => if k = key then some v else lookupAttr rest key

/-- Overwrite (or append) one binding in an attribute map: Python `setattr`. -/
def setAttrList : List (String × Value) → String → Value → List (String × Value)
  | [], key, v => [(key, v)]
  | (k, w) :: rest, key, v =>
      if k = key then (key, v) :: rest else (k, w) :: setAttrList rest key v

/-- Python `getattr(item, key)` (fields of a model always exist; `vnone` is the
default for an absent binding, which no claim relies on). -/
def Item.getattr (it : Item) (key : String) : Value :=
  (lookupAttr it.attrs key).getD .vnone

/-- Python `setattr(item, key, v)`. -/
def Item.setattr (it : Item) (key : String) (v : Value) : Item :=
  { it with attrs := setAttrList it.attrs key v }

/-- The ORM session, §6 of the spec, as explicit state.  `pkOf` is the primary
key of a row under the table schema the session is bound to.  `commitError`
injects a failure of the underlying `commit` (when `some e`, committing raises
`e`).  `commitAttempts`, `rollbackCount` and `refreshCount` instrument the
calls made to the collaborator. -/
structure Session (α : Type) where
  pkOf : α → PK
  store : List α
  staged : List α
  stagedDeletes : List α
  commitError : Option Err
  commitAttempts : Nat
  rollbackCount : Nat
  refreshCount : Nat

/-- `session.add(item)`. -/
def Session.add {α : Type} (s : Session α) (x : α) : Session α :=
  { s with staged := s.staged ++ [x] }

/-- `session.add_all(items)`. -/
def Session.add_all {α : Type} (s : Session α) (xs : List α) : Session α :=
  { s with staged := s.staged ++ xs }

/-- `session.delete(item)`: stage a deletion. -/
def Session.stageDelete {α : Type} (s : Session α) (x : α) : Session α :=
  { s with stagedDeletes := s.stagedDeletes ++ [x] }

/-- Apply one staged row to the store: replace the row with the same primary
key if present, otherwise append. -/
def upsertOne {α : Type} (pkOf : α → PK) (store : List α) (x : α) : List α :=
  if store.any (fun y => decide (pkOf y = pkOf x)) then
    store.map (fun y => if pkOf y = pkOf x then x else y)
  else
    store ++ [x]

/-- Flush all staged rows into the store in staging order. -/
def upsertAll {α : Type} (pkOf : α → PK) (store staged : List α) : List α :=
  staged.foldl (upsertOne pkOf) store

/-- `session.commit()`: one commit attempt.  On the injected failure it raises
the injected exception and leaves the pending changes in place (the transaction
is broken until a rollback); on success it flushes staged rows and deletions
into the store. -/
def Session.commit {α : Type} (s : Session α) : Session α × Option Err :=
  match s.commitError with
  | some e => ({ s with commitAttempts := s.commitAttempts + 1 }, some e)
  | none =>
      ({ s with
          store :=
            (upsertAll s.pkOf s.store s.staged).filter
              (fun y => !(s.stagedDeletes.any (fun d => decide (s.pkOf d = s.pkOf y)))),
          staged := [],
          stagedDeletes := [],
          commitAttempts := s.commitAttempts + 1 }, none)

/-- `session.rollback()`: discard all pending changes. -/
def Session.rollback {α : Type} (s : Session α) : Session α :=
  { s with staged := [], stagedDeletes := [], rollbackCount := s.rollbackCount + 1 }

/-- `session.get(model, pk)`: committed-store point lookup by primary key. -/
def Session.get {α : Type} (s : Session α) (pk : PK) : Option α :=
  s.store.find? (fun x => decide (s.pkOf x = pk))

/-- `session.refresh(instance)`: reload the instance from the store in place.
Returns the refreshed instance together with the instrumented session. -/
def Session.refreshItem {α : Type} (s : Session α) (x : α) : Session α × α :=
  ({ s with refreshCount := s.refreshCount + 1 },
    ((s.store.find? (fun y => decide (s.pkOf y = s.pkOf x)))).getD x)

/-- `Service._safe_commit` / `utils.safe_commit`: commit; if the commit raises,
roll the session back first, then raise `CommitFailed(error_msg)` with the
original exception as the cause. -/
def safe_commit {α : Type} (s : Session α) (error_msg : String) :
    Session α × Option Err :=
  match s.commit with
  | (s1, none) => (s1, none)
  | (s1, some e) => (s1.rollback, some (.commitFailed error_msg e))

/-- `Service._format_primary_key`: atomic → `str(pk)`; tuple/list →
`"|".join(str(i) for i in pk)`; dict → `"|".join(f"{k}:{v}" ...)`; anything
else raises `ValueError`. -/
def format_primary_key : PK → Except Err String
  | .atom a => .ok (atomicStr a)
  | .tup xs => .ok (String.intercalate "|" (xs.map atomicStr))
  | .lst xs => .ok (String.intercalate "|" (xs.map atomicStr))
  | .pmap ps => .ok (String.intercalate "|" (ps.map (fun p => p.1 ++ ":" ++ atomicStr p.2)))
  | .other => .error (.valueError "Unrecognized primary key type.")

/-- Default `Service._prepare_for_create`: `self._model.model_validate(data)`,
a structural copy of the creation input into a model instance. -/
def prepare_for_create (data : CreateInput) : Item :=
  { attrs := data.attrs }

/-- Default `Service._prepare_for_update`: `data.model_dump(exclude_unset=True)`. -/
def prepare_for_update (data : UpdateInput) : List (String × Value) :=
  modelDumpExcludeUnset data

/-- `Service._apply_changes_to_item`, parameterised by the (overridable)
`_prepare_for_update` hook `pfu`: `setattr` every name/value pair of
`pfu data` onto `item`, returning the item. -/
def apply_changes_to_item (pfu : UpdateInput → List (String × Value))
    (item : Item) (data : UpdateInput) : Item :=
  (pfu data).foldl (fun it kv => it.setattr kv.1 kv.2) item

/-- A SQLModel table class passed as a `joined` positional argument to
`Service.select` (only its identity matters to the statement builder). -/
structure ModelType where
  name : String
deriving DecidableEq, Repr

/-- A built (not yet executed) select statement over the row type `α` of the
service's model: the extra joined model types, the accumulated where clauses
and the accumulated order-by comparators. -/
structure SelectStmt (α : Type) where
  joined : List ModelType
  wheres : List (α → Bool)
  orders : List (α → α → Ordering)

/-- `stmt.where(clause)`. -/
def SelectStmt.whereClause {α : Type} (q : SelectStmt α) (w : α → Bool) :
    SelectStmt α :=
  { q with wheres := q.wheres ++ [w] }

/-- `stmt.order_by(*clauses)`. -/
def SelectStmt.order_by {α : Type} (q : SelectStmt α) (os : List (α → α → Ordering)) :
    SelectStmt α :=
  { q with orders := q.orders ++ os }

/-- Lexicographic combination of the order-by comparators. -/
def ordLex {α : Type} : List (α → α → Ordering) → α → α → Ordering
  | [], _, _ => .eq
  | c :: rest, x, y =>
      match c x y with
      | .eq => ordLex rest x y
      | o => o

/-- Insertion of one element into a list sorted by `le`. -/
def insertLe {α : Type} (le : α → α → Bool) (x : α) : List α → List α
  | [] => [x]
  | y :: ys => if le x y then x :: y :: ys else y :: insertLe le x ys

/-- Insertion sort by `le` (the database's ORDER BY evaluation). -/
def sortLe {α : Type} (le : α → α → Bool) : List α → List α
  | [] => []
  | x :: xs => insertLe le x (sortLe le xs)

/-- Execute a built statement against a store: filter by all where clauses,
then sort by the order-by comparators (no sorting when there are none). -/
def SelectStmt.run {α : Type} (q : SelectStmt α) (store : List α) : List α :=
  let filtered := store.filter (fun x => q.wheres.all (fun w => w x))
  match q.orders with
  | [] => filtered
  | _ => sortLe (fun x y => !(ordLex q.orders x y == Ordering.gt)) filtered

/-- `Service.select(*joined)`: builds `select(self._model, *joined)` — a fresh
statement over the service's model widened with the given joined model types.
The runtime implementation places no bound on how many joined types it
accepts; the 0–6 limit exists only in the typed `@overload` signatures. -/
def Service.select (α : Type) (joined : List ModelType) : SelectStmt α :=
  { joined := joined, wheres := [], orders := [] }

/-- SQLAlchemy `Result.one()`: exactly one row or raise. -/
def resultOne {α : Type} : List α → Except Err α
  | [] => .error .saNoResultFound
  | [x] => .ok x
  | _ :: _ :: _ => .error .saMultipleResultsFound

/-- SQLAlchemy `Result.one_or_none()`: at most one row or raise. -/
def resultOneOrNone {α : Type} : List α → Except Err (Option α)
  | [] => .ok none
  | [x] => .ok (some x)
  | _ :: _ :: _ => .error .saMultipleResultsFound

/-- `Service.exec(statement)` followed by `.all()` on the result. -/
def Service.execAll {α : Type} (s : Session α) (q : SelectStmt α) : List α :=
  q.run s.store

/-- `Service.all(where, order_by)`.  `where=None` adds no filter; the Python
truthiness test `if order_by:` skips both `None` and an empty sequence. -/
def Service.all {α : Type} (s : Session α) (wh : Option (α → Bool))
    (order_by : Option (List (α → α → Ordering))) : List α :=
  let stmt := Service.select α []
  let stmt := match wh with
    | none => stmt
    | some w => stmt.whereClause w
  let stmt := match order_by with
    | none => stmt
    | some obs => if obs.isEmpty then stmt else stmt.order_by obs
  Service.execAll s stmt

/-- `Service.get_all()`: `self._session.exec(select(self._model)).all()`. -/
def Service.get_all {α : Type} (s : Session α) : List α :=
  Service.execAll s (Service.select α [])

/-- `Service.get_by_pk(pk)`: `self._session.get(self._model, pk)`. -/
def Service.get_by_pk {α : Type} (s : Session α) (pk : PK) : Option α :=
  s.get pk

/-- `Service.one(where)`: run the filtered select, take exactly one row, and
translate the two SQLAlchemy result errors into the service taxonomy. -/
def Service.one {α : Type} (s : Session α) (wh : α → Bool) : Except Err α :=
  match resultOne (Service.execAll s ((Service.select α []).whereClause wh)) with
  | .error .saMultipleResultsFound =>
      .error (.multipleResultsFound "Multiple items matched the where clause.")
  | .error .saNoResultFound =>
      .error (.notFound "No items matched the where clause")
  | r => r

/-- `Service.one_or_none(where)`: like `one`, but zero rows yields `none` and
only the multiple-results error is translated. -/
def Service.one_or_none {α : Type} (s : Session α) (wh : α → Bool) :
    Except Err (Option α) :=
  match resultOneOrNone (Service.execAll s ((Service.select α []).whereClause wh)) with
  | .error .saMultipleResultsFound =>
      .error (.multipleResultsFound "Multiple items matched the where clause.")
  | r => r

/-- `Service.create(data)`: prepare (via the overridable hook `pfc`), stage,
commit safely, refresh, return the refreshed item. -/
def Service.create (pfc : CreateInput → Item) (s : Session Item)
    (data : CreateInput) : Session Item × Except Err Item :=
  let db_item := pfc data
  let s1 := s.add db_item
  match safe_commit s1 "Commit failed." with
  | (s2, some e) => (s2, .error e)
  | (s2, none) =>
      let r := s2.refreshItem db_item
      (r.1, .ok r.2)

/-- `Service.update(pk, data)`: load by primary key (raising `NotFound` with
the formatted key when absent — a `ValueError` from the formatter propagates
instead), apply the changes via `_apply_changes_to_item` with hook `pfu`,
stage, format the key for the error message (evaluated before the commit),
commit safely, refresh, return the item. -/
def Service.update (pfu : UpdateInput → List (String × Value)) (s : Session Item)
    (pk : PK) (data : UpdateInput) : Session Item × Except Err Item :=
  match s.get pk with
  | none =>
      (s, match format_primary_key pk with
          | .ok f => .error (.notFound f)
          | .error e => .error e)
  | some item =>
      let item1 := apply_changes_to_item pfu item data
      let s1 := s.add item1
      match format_primary_key pk with
      | .error e => (s1, .error e)
      | .ok f =>
          match safe_commit s1 ("Failed to update " ++ f ++ ".") with
          | (s2, some e) => (s2, .error e)
          | (s2, none) =>
              let r := s2.refreshItem item1
              (r.1, .ok r.2)

/-- `Service.delete_by_pk(pk)`: load by primary key (raising `NotFound` with
the formatted key when absent), stage the deletion, commit safely. -/
def Service.delete_by_pk (s : Session Item) (pk : PK) :
    Session Item × Except Err Unit :=
  match s.get pk with
  | none =>
      (s, match format_primary_key pk with
          | .ok f => .error (.notFound f)
          | .error e => .error e)
  | some item =>
      let s1 := s.stageDelete item
      match safe_commit s1 "Failed to delete item." with
      | (s2, some e) => (s2, .error e)
      | (s2, none) => (s2, .ok ())

/-- A runtime element of the `items` iterable of `add_to_session`: either a
creation input or a `(model, update)` pair (Python sees an untagged union). -/
abbrev DynItem := CreateInput ⊕ (Item × UpdateInput)

/-- `self._prepare_for_create(item)` on a runtime element: validating a
`(model, update)` tuple against the model class raises a (non-service)
validation error. -/
def prepareCreateDyn (pfc : CreateInput → Item) : DynItem → Except Err Item
  | .inl c => .ok (pfc c)
  | .inr _ => .error (.typeError "model_validate received a tuple")

/-- `self._apply_changes_to_item(item, changes)` on a runtime element:
unpacking a non-pair raises a (non-service) type error. -/
def prepareUpdateDyn (pfu : UpdateInput → List (String × Value)) :
    DynItem → Except Err Item
  | .inr p => .ok (apply_changes_to_item pfu p.1 p.2)
  | .inl _ => .error (.typeError "cannot unpack a creation input")

/-- A Python list comprehension over a fallible per-element function: the
first exception aborts the whole comprehension. -/
def mapExcept {β γ : Type} (f : β → Except Err γ) : List β → Except Err (List γ)
  | [] => .ok []
  | x :: xs =>
      match f x with
      | .error e => .error e
      | .ok y =>
          match mapExcept f xs with
          | .error e => .error e
          | .ok ys => .ok (y :: ys)

/-- The `if operation == "create" / elif "update" / else raise` ladder of
`add_to_session`, producing `db_items` (the first per-item exception aborts
the comprehension). -/
def prepareItems (pfc : CreateInput → Item) (pfu : UpdateInput → List (String × Value))
    (operation : String) (items : List DynItem) : Except Err (List Item) :=
  if operation = "create" then
    mapExcept (prepareCreateDyn pfc) items
  else if operation = "update" then
    mapExcept (prepareUpdateDyn pfu) items
  else
    .error (.serviceException ("Unsupported operation: " ++ operation))

/-- `Service.add_to_session(items, commit=..., operation=...)`: build
`db_items` per the operation selector, `add_all` them to the session, commit
once (safely) when `commit` is true — even for an empty batch — and return
`db_items`.  Never refreshes any item. -/
def Service.add_to_session (pfc : CreateInput → Item)
    (pfu : UpdateInput → List (String × Value)) (s : Session Item)
    (items : List DynItem) (commit : Bool) (operation : String) :
    Session Item × Except Err (List Item) :=
  match prepareItems pfc pfu operation items with
  | .error e => (s, .error e)
  | .ok db_items =>
      let s1 := s.add_all db_items
      if commit then
        match safe_commit s1 "Commit failed." with
        | (s2, some e) => (s2, .error e)
        | (s2, none) => (s2, .ok db_items)
      else
        (s1, .ok db_items)

/-! ## Claim theorems -/

/-- C9: for every session state, `get_all()` returns the same sequence of
models as `all()` invoked with no where predicate and no order_by clauses. -/
theorem get_all_equiv_all_unfiltered {α : Type} (s : Session α) :
    Service.get_all s = Service.all s none none := rfl

/-- C5: the primary-key formatter maps an atomic integer key to its decimal
string and an atomic string key to itself, a tuple or list key to the
`"|"`-joined string of its elements, a mapping key to the `"|"`-joined
sequence of `key:value` pairs, and raises a `ValueError` — which is not one of
the four service error kinds — on any other shape. -/
theorem format_primary_key_spec :
    (∀ i : Int, format_primary_key (.atom (.aint i)) = .ok (toString i))
    ∧ (∀ str : String, format_primary_key (.atom (.astr str)) = .ok str)
    ∧ (∀ xs : List Atomic,
        format_primary_key (.tup xs) = .ok (String.intercalate "|" (xs.map atomicStr)))
    ∧ (∀ xs : List Atomic,
        format_primary_key (.lst xs) = .ok (String.intercalate "|" (xs.map atomicStr)))
    ∧ (∀ ps : List (String × Atomic),
        format_primary_key (.pmap ps) =
          .ok (String.intercalate "|" (ps.map (fun p => p.1 ++ ":" ++ atomicStr p.2))))
    ∧ format_primary_key .other = .error (.valueError "Unrecognized primary key type.")
    ∧ (Err.valueError "Unrecognized primary key type.").isServiceError = false := by
  refine ⟨fun i => rfl, fun str => rfl, fun xs => rfl, fun xs => rfl, fun ps => rfl, rfl, rfl⟩

/-- Seven distinct joined model types — one more than the six the typed
`@overload` signatures of `Service.select` cover. -/
def sevenJoined : List ModelType :=
  [⟨"M1"⟩, ⟨"M2"⟩, ⟨"M3"⟩, ⟨"M4"⟩, ⟨"M5"⟩, ⟨"M6"⟩, ⟨"M7"⟩]

/-- C8 counterexample: called with seven joined model types, the runtime
implementation of `select` does not fail — it builds the widened select
statement containing all seven joined types (the claim says such a call
"fails rather than building a statement"). -/
theorem select_seven_joined_builds_statement :
    Service.select Item sevenJoined =
      { joined := sevenJoined, wheres := [], orders := [] }
    ∧ (Service.select Item sevenJoined).joined.length = 7 := by
  exact ⟨rfl, rfl⟩

/-- C8 amended: the six-joined-types limit is enforced only by the fixed-arity
typed overloads; at runtime, `select` called with more than six joined model
types still builds the select statement over the model widened with every
requested joined type, raising nothing. -/
theorem select_beyond_six_joined_still_builds {α : Type} (js : List ModelType)
    (_h : 6 < js.length) :
    Service.select α js = { joined := js, wheres := [], orders := [] } := rfl

/-- Witness for the amended C8 theorem at seven concrete joined types. -/
theorem select_beyond_six_joined_still_builds_witness :
    6 < sevenJoined.length
    ∧ Service.select Item sevenJoined =
        { joined := sevenJoined, wheres := [], orders := [] } :=
  ⟨by decide, select_beyond_six_joined_still_builds sevenJoined (by decide)⟩

/-! ## Attribute-map lemmas (for the partial-update claim) -/

theorem lookupAttr_setAttrList_same (l : List (String × Value)) (k : String) (v : Value) :
    lookupAttr (setAttrList l k v) k = some v := by
  induction l with
  | nil => simp [setAttrList, lookupAttr]
  | cons hd tl ih =>
      obtain ⟨k0, v0⟩ := hd
      by_cases hk : k0 = k
      · subst hk
        simp [setAttrList, lookupAttr]
      · simp [setAttrList, lookupAttr, hk, ih]

theorem lookupAttr_setAttrList_other (l : List (String × Value)) (k key : String)
    (v : Value) (hne : k ≠ key) :
    lookupAttr (setAttrList l k v) key = lookupAttr l key := by
  induction l with
  | nil => simp [setAttrList, lookupAttr, hne]
  | cons hd tl ih =>
      obtain ⟨k0, v0⟩ := hd
      by_cases hk : k0 = k
      · subst hk
        simp [setAttrList, lookupAttr, hne]
      · simp [setAttrList, lookupAttr, hk, ih]

theorem getattr_setattr_same (it : Item) (k : String) (v : Value) :
    (it.setattr k v).getattr k = v := by
  simp [Item.getattr, Item.setattr, lookupAttr_setAttrList_same]

theorem getattr_setattr_other (it : Item) (k key : String) (v : Value) (hne : k ≠ key) :
    (it.setattr k v).getattr key = it.getattr key := by
  simp [Item.getattr, Item.setattr, lookupAttr_setAttrList_other _ _ _ _ hne]

/-- Folding a list of assignments none of which mentions `key` leaves
`getattr key` unchanged. -/
theorem foldl_setattr_not_mem (kvs : List (String × Value)) (item : Item) (key : String)
    (h : key ∉ kvs.map Prod.fst) :
    (kvs.foldl (fun it kv => it.setattr kv.1 kv.2) item).getattr key = item.getattr key := by
  induction kvs generalizing item with
  | nil => rfl
  | cons hd tl ih =>
      simp only [List.map_cons, List.mem_cons] at h
      push_neg at h
      simp only [List.foldl_cons]
      rw [ih _ h.2, getattr_setattr_other _ _ _ _ (fun he => h.1 he.symm)]

/-- Folding a list of assignments with pairwise-distinct keys assigns each
mentioned key its listed value. -/
theorem foldl_setattr_mem (kvs : List (String × Value)) (item : Item)
    (k : String) (v : Value) (hnd : (kvs.map Prod.fst).Nodup) (hmem : (k, v) ∈ kvs) :
    (kvs.foldl (fun it kv => it.setattr kv.1 kv.2) item).getattr k = v := by
  induction kvs generalizing item with
  | nil => cases hmem
  | cons hd tl ih =>
      simp only [List.map_cons, List.nodup_cons] at hnd
      rcases List.mem_cons.mp hmem with heq | htl
      · subst heq
        simp only [List.foldl_cons]
        have hk : k ∉ tl.map Prod.fst := hnd.1
        rw [foldl_setattr_not_mem _ _ _ hk, getattr_setattr_same]
      · simp only [List.foldl_cons]
        exact ih _ hnd.2 htl

/-- The keys of `model_dump(exclude_unset=True)` are the names of the
explicitly-set fields. -/
theorem modelDumpExcludeUnset_keys (data : UpdateInput) :
    (modelDumpExcludeUnset data).map Prod.fst =
      (data.filter (fun f => f.wasSet)).map UField.name := by
  simp [modelDumpExcludeUnset, List.map_map, Function.comp]

/-- C4: for every existing item and every update input whose field names are
pairwise distinct (as the fields of a pydantic model are), applying the update
with the default `_prepare_for_update`: every explicitly-set field of the
input ends up with its new value on the item — set-ness being the per-field
marker, independent of the value, so even a field set to `Value.vnone` is
written — and every field name not among the explicitly-set ones keeps the
item's previous value. -/
theorem update_assigns_exactly_the_set_fields (item : Item) (data : UpdateInput)
    (hnodup : (data.map UField.name).Nodup) :
    (∀ uf ∈ data, uf.wasSet = true →
        (apply_changes_to_item prepare_for_update item data).getattr uf.name = uf.value)
    ∧ (∀ fname : String,
        fname ∉ (data.filter (fun f => f.wasSet)).map UField.name →
        (apply_changes_to_item prepare_for_update item data).getattr fname =
          item.getattr fname) := by
  have hkeys := modelDumpExcludeUnset_keys data
  have hnd : ((modelDumpExcludeUnset data).map Prod.fst).Nodup := by
    rw [hkeys]
    exact ((List.filter_sublist data).map UField.name).nodup hnodup
  constructor
  · intro uf hmem hset
    have hin : (uf.name, uf.value) ∈ modelDumpExcludeUnset data := by
      refine List.mem_map.mpr ⟨uf, ?_, rfl⟩
      exact List.mem_filter.mpr ⟨hmem, hset⟩
    exact foldl_setattr_mem _ _ _ _ hnd hin
  · intro fname hnot
    have hnot2 : fname ∉ (modelDumpExcludeUnset data).map Prod.fst := by
      rw [hkeys]; exact hnot
    exact foldl_setattr_not_mem _ _ _ hnot2

/-- Witness for C4: a two-field item; the update sets `name` (to a new value)
and explicitly sets `score` to Python `None`, while leaving a third declared
field `age` unset even though it carries a (default) value — `name` and
`score` change, `age` keeps the item's stored value. -/
theorem update_assigns_exactly_the_set_fields_witness :
    List.Nodup (([⟨"name", .vstr "Second", true⟩, ⟨"score", .vnone, true⟩,
        ⟨"age", .vint 99, false⟩] : UpdateInput).map UField.name)
    ∧ (apply_changes_to_item prepare_for_update
        ⟨[("name", .vstr "First"), ("score", .vint 10), ("age", .vint 3)]⟩
        [⟨"name", .vstr "Second", true⟩, ⟨"score", .vnone, true⟩,
          ⟨"age", .vint 99, false⟩]).getattr "name" = .vstr "Second"
    ∧ (apply_changes_to_item prepare_for_update
        ⟨[("name", .vstr "First"), ("score", .vint 10), ("age", .vint 3)]⟩
        [⟨"name", .vstr "Second", true⟩, ⟨"score", .vnone, true⟩,
          ⟨"age", .vint 99, false⟩]).getattr "score" = .vnone
    ∧ (apply_changes_to_item prepare_for_update
        ⟨[("name", .vstr "First"), ("score", .vint 10), ("age", .vint 3)]⟩
        [⟨"name", .vstr "Second", true⟩, ⟨"score", .vnone, true⟩,
          ⟨"age", .vint 99, false⟩]).getattr "age" =
        (⟨[("name", .vstr "First"), ("score", .vint 10), ("age", .vint 3)]⟩ : Item).getattr "age" := by
  have h := update_assigns_exactly_the_set_fields
    ⟨[("name", .vstr "First"), ("score", .vint 10), ("age", .vint 3)]⟩
    [⟨"name", .vstr "Second", true⟩, ⟨"score", .vnone, true⟩, ⟨"age", .vint 99, false⟩]
    (by decide)
  refine ⟨by decide, ?_, ?_, ?_⟩
  · exact h.1 ⟨"name", .vstr "Second", true⟩ (by decide) rfl
  · exact h.1 ⟨"score", .vnone, true⟩ (by simp) rfl
  · exact h.2 "age" (by decide)

/-- Running `select().where(wh)` against a session returns exactly the stored
rows matching `wh`, in store order. -/
theorem execAll_select_where {α : Type} (s : Session α) (wh : α → Bool) :
    Service.execAll s ((Service.select α []).whereClause wh) = s.store.filter wh := by
  simp [Service.execAll, Service.select, SelectStmt.whereClause, SelectStmt.run,
    List.all_cons, List.all_nil, Bool.and_true]

/-- C2: for every where predicate — zero matching rows: `one` raises
`NotFound` while `one_or_none` returns `none` without raising; exactly one
matching row: both return it; two or more matching rows: both raise
`MultipleResultsFound`. -/
theorem one_vs_one_or_none_trichotomy {α : Type} (s : Session α) (wh : α → Bool) :
    (s.store.filter wh = [] →
        Service.one s wh = .error (.notFound "No items matched the where clause")
        ∧ Service.one_or_none s wh = .ok none)
    ∧ (∀ x : α, s.store.filter wh = [x] →
        Service.one s wh = .ok x ∧ Service.one_or_none s wh = .ok (some x))
    ∧ (2 ≤ (s.store.filter wh).length →
        Service.one s wh =
            .error (.multipleResultsFound "Multiple items matched the where clause.")
        ∧ Service.one_or_none s wh =
            .error (.multipleResultsFound "Multiple items matched the where clause.")) := by
  have hb := execAll_select_where s wh
  refine ⟨?_, ?_, ?_⟩
  · intro h0
    constructor
    · simp [Service.one, hb, h0, resultOne]
    · simp [Service.one_or_none, hb, h0, resultOneOrNone]
  · intro x h1
    constructor
    · simp [Service.one, hb, h1, resultOne]
    · simp [Service.one_or_none, hb, h1, resultOneOrNone]
  · intro h2
    rcases hm : s.store.filter wh with _ | ⟨a, tl⟩
    · rw [hm] at h2
      simp at h2
    · rcases tl with _ | ⟨b, t⟩
      · rw [hm] at h2
        simp at h2
      · constructor
        · simp [Service.one, hb, hm, resultOne]
        · simp [Service.one_or_none, hb, hm, resultOneOrNone]

/-- A session over `Item` rows whose primary key column is the `id` attribute
(used to instantiate the claim theorems at concrete inputs). -/
def mkSession (store staged : List Item) (cerr : Option Err) : Session Item :=
  { pkOf := fun it =>
      match it.getattr "id" with
      | .vint i => PK.atom (.aint i)
      | .vstr str => PK.atom (.astr str)
      | _ => PK.other,
    store := store,
    staged := staged,
    stagedDeletes := [],
    commitError := cerr,
    commitAttempts := 0,
    rollbackCount := 0,
    refreshCount := 0 }

/-- Witness for C2 at an empty store: `one` raises `NotFound`, `one_or_none`
returns `none`. -/
theorem one_vs_one_or_none_trichotomy_witness :
    (mkSession [] [] none).store.filter (fun _ => true) = []
    ∧ Service.one (mkSession [] [] none) (fun _ => true) =
        .error (.notFound "No items matched the where clause")
    ∧ Service.one_or_none (mkSession [] [] none) (fun _ => true) = .ok none := by
  have h := (one_vs_one_or_none_trichotomy (mkSession [] [] none) (fun _ => true)).1 rfl
  exact ⟨rfl, h.1, h.2⟩

/-- C3: for every primary key (of one of the declared `PrimaryKey` shapes, so
that formatting succeeds) for which no item exists in the store: `update` and
`delete_by_pk` raise `NotFound` carrying the formatted primary key and leave
the session untouched, while `get_by_pk` returns `none` and raises nothing. -/
theorem missing_pk_update_delete_raise_get_returns_none
    (s : Session Item) (pk : PK) (data : UpdateInput)
    (pfu : UpdateInput → List (String × Value)) (f : String)
    (habsent : s.get pk = none) (hfmt : format_primary_key pk = .ok f) :
    Service.get_by_pk s pk = none
    ∧ Service.update pfu s pk data = (s, .error (.notFound f))
    ∧ Service.delete_by_pk s pk = (s, .error (.notFound f)) := by
  refine ⟨habsent, ?_, ?_⟩
  · simp [Service.update, habsent, hfmt]
  · simp [Service.delete_by_pk, habsent, hfmt]

/-- Witness for C3: an empty store and the integer primary key `42`. -/
theorem missing_pk_witness :
    (mkSession [] [] none).get (.atom (.aint 42)) = none
    ∧ format_primary_key (.atom (.aint 42)) = .ok "42"
    ∧ Service.get_by_pk (mkSession [] [] none) (.atom (.aint 42)) = none
    ∧ Service.update prepare_for_update (mkSession [] [] none) (.atom (.aint 42)) [] =
        (mkSession [] [] none, .error (.notFound "42"))
    ∧ Service.delete_by_pk (mkSession [] [] none) (.atom (.aint 42)) =
        (mkSession [] [] none, .error (.notFound "42")) := by
  have h := missing_pk_update_delete_raise_get_returns_none
    (mkSession [] [] none) (.atom (.aint 42)) [] prepare_for_update "42" rfl rfl
  exact ⟨rfl, rfl, h.1, h.2.1, h.2.2⟩

/-- C7: for every items sequence, commit flag and operation selector that is
neither `"create"` nor `"update"`, `add_to_session` raises the base
`ServiceException` with a descriptive message and returns the session exactly
as it was — nothing is staged and no commit is attempted. -/
theorem add_to_session_invalid_operation
    (pfc : CreateInput → Item) (pfu : UpdateInput → List (String × Value))
    (s : Session Item) (items : List DynItem) (commit : Bool) (op : String)
    (h1 : op ≠ "create") (h2 : op ≠ "update") :
    Service.add_to_session pfc pfu s items commit op =
      (s, .error (.serviceException ("Unsupported operation: " ++ op))) := by
  unfold Service.add_to_session prepareItems
  rw [if_neg h1, if_neg h2]

/-- Witness for C7 at the unsupported selector `"delete"`. -/
theorem add_to_session_invalid_operation_witness :
    ("delete" ≠ "create" ∧ "delete" ≠ "update")
    ∧ Service.add_to_session prepare_for_create prepare_for_update
        (mkSession [] [] none) [] true "delete" =
      (mkSession [] [] none,
        .error (.serviceException ("Unsupported operation: " ++ "delete"))) :=
  ⟨⟨by decide, by decide⟩,
    add_to_session_invalid_operation prepare_for_create prepare_for_update
      (mkSession [] [] none) [] true "delete" (by decide) (by decide)⟩

/-- C6: for every items sequence — the empty one included — and every
operation selector under which per-item preparation succeeds,
`add_to_session(items, operation, commit=True)` makes exactly one commit
attempt for the whole batch and performs no refresh at all (whether the
commit succeeds or fails). -/
theorem add_to_session_commits_once_never_refreshes
    (pfc : CreateInput → Item) (pfu : UpdateInput → List (String × Value))
    (s : Session Item) (items : List DynItem) (op : String) (db_items : List Item)
    (hprep : prepareItems pfc pfu op items = .ok db_items) :
    (Service.add_to_session pfc pfu s items true op).1.commitAttempts =
        s.commitAttempts + 1
    ∧ (Service.add_to_session pfc pfu s items true op).1.refreshCount =
        s.refreshCount := by
  cases hce : s.commitError with
  | none =>
      simp [Service.add_to_session, hprep, safe_commit, Session.commit,
        Session.add_all, Session.rollback, hce]
  | some e =>
      simp [Service.add_to_session, hprep, safe_commit, Session.commit,
        Session.add_all, Session.rollback, hce]

/-- Witness for C6 at the empty batch with `operation="update"`: the commit
still happens (one attempt) and nothing is refreshed. -/
theorem add_to_session_commits_once_never_refreshes_witness :
    prepareItems prepare_for_create prepare_for_update "update" [] = .ok []
    ∧ (Service.add_to_session prepare_for_create prepare_for_update
        (mkSession [] [] none) [] true "update").1.commitAttempts =
        (mkSession [] [] none).commitAttempts + 1
    ∧ (Service.add_to_session prepare_for_create prepare_for_update
        (mkSession [] [] none) [] true "update").1.refreshCount =
        (mkSession [] [] none).refreshCount := by
  have h := add_to_session_commits_once_never_refreshes prepare_for_create
    prepare_for_update (mkSession [] [] none) [] "update" [] rfl
  exact ⟨rfl, h.1, h.2⟩

/-- Preparing a well-typed batch of creation inputs succeeds element-wise. -/
theorem mapExcept_prepareCreate (pfc : CreateInput → Item) (xs : List CreateInput) :
    mapExcept (prepareCreateDyn pfc) (xs.map Sum.inl) = .ok (xs.map pfc) := by
  induction xs with
  | nil => rfl
  | cons hd tl ih => simp [mapExcept, prepareCreateDyn, ih]

/-- Preparing a well-typed batch of `(model, update)` pairs succeeds
element-wise. -/
theorem mapExcept_prepareUpdate (pfu : UpdateInput → List (String × Value))
    (ps : List (Item × UpdateInput)) :
    mapExcept (prepareUpdateDyn pfu) (ps.map Sum.inr) =
      .ok (ps.map (fun p => apply_changes_to_item pfu p.1 p.2)) := by
  induction ps with
  | nil => rfl
  | cons hd tl ih => simp [mapExcept, prepareUpdateDyn, ih]

/-- C10: whenever `add_to_session` returns normally (here: the injected commit
failure is absent), it returns one element per input item, in input order —
for `operation="create"` the i-th element is the model prepared from the i-th
creation input by the prepare-for-create hook, and for `operation="update"`
the i-th element is the i-th pair's model with the update's explicitly-set
fields applied by `_apply_changes_to_item`. -/
theorem add_to_session_returns_prepared_items_in_order
    (pfc : CreateInput → Item) (pfu : UpdateInput → List (String × Value))
    (s : Session Item) (xs : List CreateInput) (ps : List (Item × UpdateInput))
    (commit : Bool) (hok : s.commitError = none) :
    (Service.add_to_session pfc pfu s (xs.map Sum.inl) commit "create").2 =
        .ok (xs.map pfc)
    ∧ (Service.add_to_session pfc pfu s (ps.map Sum.inr) commit "update").2 =
        .ok (ps.map (fun p => apply_changes_to_item pfu p.1 p.2)) := by
  constructor
  · have hprep : prepareItems pfc pfu "create" (xs.map Sum.inl) = .ok (xs.map pfc) := by
      simp [prepareItems, mapExcept_prepareCreate]
    cases commit with
    | false => simp [Service.add_to_session, hprep]
    | true =>
        simp [Service.add_to_session, hprep, safe_commit, Session.commit,
          Session.add_all, hok]
  · have hprep : prepareItems pfc pfu "update" (ps.map Sum.inr) =
        .ok (ps.map (fun p => apply_changes_to_item pfu p.1 p.2)) := by
      simp [prepareItems, mapExcept_prepareUpdate]
    cases commit with
    | false => simp [Service.add_to_session, hprep]
    | true =>
        simp [Service.add_to_session, hprep, safe_commit, Session.commit,
          Session.add_all, hok]

/-- Witness for C10: two creation inputs and one `(model, update)` pair. -/
theorem add_to_session_returns_prepared_items_in_order_witness :
    (mkSession [] [] none).commitError = none
    ∧ (Service.add_to_session prepare_for_create prepare_for_update
        (mkSession [] [] none)
        ([⟨[("name", .vstr "First")]⟩, ⟨[("name", .vstr "Second")]⟩].map Sum.inl)
        true "create").2 =
      .ok [⟨[("name", .vstr "First")]⟩, ⟨[("name", .vstr "Second")]⟩]
    ∧ (Service.add_to_session prepare_for_create prepare_for_update
        (mkSession [] [] none)
        ([(⟨[("name", .vstr "First")]⟩, [⟨"name", .vstr "First - 1", true⟩])].map Sum.inr)
        true "update").2 =
      .ok [⟨[("name", .vstr "First - 1")]⟩] := by
  have h := add_to_session_returns_prepared_items_in_order prepare_for_create
    prepare_for_update (mkSession [] [] none)
    [⟨[("name", .vstr "First")]⟩, ⟨[("name", .vstr "Second")]⟩]
    [(⟨[("name", .vstr "First")]⟩, [⟨"name", .vstr "First - 1", true⟩])]
    true rfl
  refine ⟨rfl, ?_, ?_⟩
  · exact h.1
  · rw [h.2]
    rfl

/-- C1: whenever the underlying commit raises, `safe_commit` (the commit path
shared by `create`, `update`, `delete_by_pk` and `add_to_session` with
`commit=True`) first rolls the session back and only then raises
`CommitFailed` with the supplied message and the original commit exception as
the cause: the session returned alongside the error is exactly the rolled-back
session (no staged rows or deletions survive), and each mutating operation
surfaces that `CommitFailed` with its own message while leaving the session
rolled back. -/
theorem failed_commit_rolls_back_then_raises
    (s : Session Item) (msg : String) (e : Err) (h : s.commitError = some e) :
    safe_commit s msg =
      (Session.rollback { s with commitAttempts := s.commitAttempts + 1 },
        some (.commitFailed msg e))
    ∧ (safe_commit s msg).1.staged = []
    ∧ (safe_commit s msg).1.stagedDeletes = []
    ∧ (safe_commit s msg).1.rollbackCount = s.rollbackCount + 1
    ∧ (∀ (pfc : CreateInput → Item) (data : CreateInput),
        (Service.create pfc s data).2 = .error (.commitFailed "Commit failed." e)
        ∧ (Service.create pfc s data).1.staged = []
        ∧ (Service.create pfc s data).1.rollbackCount = s.rollbackCount + 1)
    ∧ (∀ (pfc : CreateInput → Item) (pfu : UpdateInput → List (String × Value))
        (items : List DynItem) (db_items : List Item) (op : String),
        prepareItems pfc pfu op items = .ok db_items →
        (Service.add_to_session pfc pfu s items true op).2 =
            .error (.commitFailed "Commit failed." e)
        ∧ (Service.add_to_session pfc pfu s items true op).1.staged = []
        ∧ (Service.add_to_session pfc pfu s items true op).1.rollbackCount =
            s.rollbackCount + 1)
    ∧ (∀ (pfu : UpdateInput → List (String × Value)) (pk : PK) (data : UpdateInput)
        (item : Item) (f : String),
        s.get pk = some item → format_primary_key pk = .ok f →
        (Service.update pfu s pk data).2 =
            .error (.commitFailed ("Failed to update " ++ f ++ ".") e)
        ∧ (Service.update pfu s pk data).1.staged = []
        ∧ (Service.update pfu s pk data).1.rollbackCount = s.rollbackCount + 1)
    ∧ (∀ (pk : PK) (item : Item),
        s.get pk = some item →
        (Service.delete_by_pk s pk).2 =
            .error (.commitFailed "Failed to delete item." e)
        ∧ (Service.delete_by_pk s pk).1.staged = []
        ∧ (Service.delete_by_pk s pk).1.stagedDeletes = []
        ∧ (Service.delete_by_pk s pk).1.rollbackCount = s.rollbackCount + 1) := by
  refine ⟨?_, ?_, ?_, ?_, ?_, ?_, ?_, ?_⟩
  · simp [safe_commit, Session.commit, h, Session.rollback]
  · simp [safe_commit, Session.commit, h, Session.rollback]
  · simp [safe_commit, Session.commit, h, Session.rollback]
  · simp [safe_commit, Session.commit, h, Session.rollback]
  · intro pfc data
    refine ⟨?_, ?_, ?_⟩ <;>
      simp [Service.create, safe_commit, Session.commit, Session.add,
        Session.rollback, h]
  · intro pfc pfu items db_items op hprep
    refine ⟨?_, ?_, ?_⟩ <;>
      simp [Service.add_to_session, hprep, safe_commit, Session.commit,
        Session.add_all, Session.rollback, h]
  · intro pfu pk data item f hget hfmt
    refine ⟨?_, ?_, ?_⟩ <;>
      simp [Service.update, hget, hfmt, safe_commit, Session.commit,
        Session.add, Session.rollback, h]
  · intro pk item hget
    refine ⟨?_, ?_, ?_, ?_⟩ <;>
      simp [Service.delete_by_pk, hget, safe_commit, Session.commit,
        Session.stageDelete, Session.rollback, h]

/-- Witness for C1: a session holding one stored row and one staged row whose
commit is set to raise a database error; `safe_commit`, `create`, `update`,
`delete_by_pk` and the committing `add_to_session` all roll back and raise
`CommitFailed` with the original error as cause. -/
theorem failed_commit_rolls_back_then_raises_witness :
    (mkSession [⟨[("id", .vint 1)]⟩] [⟨[("id", .vint 2)]⟩]
        (some (.dbError "disk full"))).commitError = some (.dbError "disk full")
    ∧ (safe_commit (mkSession [⟨[("id", .vint 1)]⟩] [⟨[("id", .vint 2)]⟩]
        (some (.dbError "disk full"))) "Commit failed.").1.staged = []
    ∧ (safe_commit (mkSession [⟨[("id", .vint 1)]⟩] [⟨[("id", .vint 2)]⟩]
        (some (.dbError "disk full"))) "Commit failed.").2 =
        some (.commitFailed "Commit failed." (.dbError "disk full"))
    ∧ (Service.create prepare_for_create
        (mkSession [⟨[("id", .vint 1)]⟩] [⟨[("id", .vint 2)]⟩]
          (some (.dbError "disk full"))) ⟨[("name", .vstr "X")]⟩).2 =
        .error (.commitFailed "Commit failed." (.dbError "disk full"))
    ∧ (Service.update prepare_for_update
        (mkSession [⟨[("id", .vint 1)]⟩] [⟨[("id", .vint 2)]⟩]
          (some (.dbError "disk full"))) (.atom (.aint 1)) []).2 =
        .error (.commitFailed "Failed to update 1." (.dbError "disk full"))
    ∧ (Service.delete_by_pk
        (mkSession [⟨[("id", .vint 1)]⟩] [⟨[("id", .vint 2)]⟩]
          (some (.dbError "disk full"))) (.atom (.aint 1))).2 =
        .error (.commitFailed "Failed to delete item." (.dbError "disk full"))
    ∧ (Service.add_to_session prepare_for_create prepare_for_update
        (mkSession [⟨[("id", .vint 1)]⟩] [⟨[("id", .vint 2)]⟩]
          (some (.dbError "disk full"))) [] true "create").2 =
        .error (.commitFailed "Commit failed." (.dbError "disk full")) := by
  have h := failed_commit_rolls_back_then_raises
    (mkSession [⟨[("id", .vint 1)]⟩] [⟨[("id", .vint 2)]⟩]
      (some (.dbError "disk full"))) "Commit failed." (.dbError "disk full") rfl
  refine ⟨rfl, ?_, ?_, ?_, ?_, ?_, ?_⟩
  · exact h.2.1
  · rw [h.1]
  · exact (h.2.2.2.2.1 prepare_for_create ⟨[("name", .vstr "X")]⟩).1
  · exact (h.2.2.2.2.2.2.1 prepare_for_update (.atom (.aint 1)) []
      ⟨[("id", .vint 1)]⟩ "1" (by decide) rfl).1
  · exact (h.2.2.2.2.2.2.2 (.atom (.aint 1)) ⟨[("id", .vint 1)]⟩ (by decide)).1
  · exact (h.2.2.2.2.2.1 prepare_for_create prepare_for_update [] [] "create" rfl).1
